import Mathlib

/-!
Verification of the rawterm line-editing engine: a shallow embedding of the
dispatch loop (`operation.go`), the synchronization bridge and result helpers
(`readline.go`), and the configuration initialization, together with theorems
about the claims of the specification.

The line-buffer data structure and the key-code constants live in files that
are not part of the embedded sources, so they are modelled from the
specification (sections 3, 4.1 and 6); everything else is translated directly
from `operation.go` and `readline.go`.
-/

namespace Rawterm

/-- Go rune: an `int32` code point. Meta keys use negative sentinel values. -/
abbrev Rune := Int

/-- Code points of a Go string, as runes (`[]rune(s)` in Go). -/
def strRunes (s : String) : List Rune :=
  s.data.map (fun c => (c.toNat : Int))

/-! Key-code constants.  Modelled from the spec: the constants file is not
under the embedded sources; values follow the shortcut table of section 6
(standard ASCII control codes, negative sentinels for Meta combinations). -/

def CharLineStart : Rune := 1
def CharBackward : Rune := 2
def CharInterrupt : Rune := 3
def CharDelete : Rune := 4
def CharLineEnd : Rune := 5
def CharForward : Rune := 6
def CharBell : Rune := 7
def CharCtrlH : Rune := 8
def CharTab : Rune := 9
def CharCtrlJ : Rune := 10
def CharKill : Rune := 11
def CharCtrlL : Rune := 12
def CharEnter : Rune := 13
def CharNext : Rune := 14
def CharPrev : Rune := 16
def CharBckSearch : Rune := 18
def CharFwdSearch : Rune := 19
def CharTranspose : Rune := 20
def CharCtrlU : Rune := 21
def CharCtrlW : Rune := 23
def CharCtrlZ : Rune := 26
def CharBackspace : Rune := 127
def MetaBackward : Rune := -1
def MetaForward : Rune := -2
def MetaDelete : Rune := -3
def MetaBackspace : Rune := -4

/-- Modelled from the spec: the Line Buffer (section 3) — `RuneBuffer` is not
under the embedded sources.  `content` is the ordered sequence of code
points, `cursor` an index with `0 ≤ cursor ≤ content.length`. -/
structure RuneBuffer where
  content : List Rune
  cursor : Nat
deriving Repr, DecidableEq

namespace RuneBuffer

/-- Modelled from the spec: number of code points in the buffer. -/
def len (b : RuneBuffer) : Nat := b.content.length

/-- Modelled from the spec: `MoveToLineEnd` sets the cursor to `len(content)`. -/
def moveToLineEnd (b : RuneBuffer) : RuneBuffer :=
  { b with cursor := b.content.length }

/-- Modelled from the spec: `MoveToLineStart` sets the cursor to 0. -/
def moveToLineStart (b : RuneBuffer) : RuneBuffer :=
  { b with cursor := 0 }

/-- Modelled from the spec: `InsertRune` inserts at the cursor and advances
the cursor by 1 (`WriteRune` in the dispatch loop). -/
def writeRune (b : RuneBuffer) (r : Rune) : RuneBuffer :=
  ⟨b.content.take b.cursor ++ [r] ++ b.content.drop b.cursor, b.cursor + 1⟩

/-- Modelled from the spec: `WriteString` inserts a sequence of code points at
the cursor, advancing the cursor past it. -/
def writeString (b : RuneBuffer) (s : List Rune) : RuneBuffer :=
  ⟨b.content.take b.cursor ++ s ++ b.content.drop b.cursor, b.cursor + s.length⟩

/-- Modelled from the spec: `Reset` returns the current content and clears
both content and cursor to empty/0 (section 4.1). -/
def reset (b : RuneBuffer) : List Rune × RuneBuffer :=
  (b.content, ⟨[], 0⟩)

/-- Modelled from the spec: `Clean` erases the on-screen rendering without
clearing the in-memory content (section 3, lifecycle). -/
def clean (b : RuneBuffer) : RuneBuffer := b

/-- Modelled from the spec: `DeleteForward` removes the code point at the
cursor if any; returns false (no-op) when the cursor is at the end. -/
def delete (b : RuneBuffer) : RuneBuffer × Bool :=
  if b.cursor < b.content.length then
    (⟨b.content.take b.cursor ++ b.content.drop (b.cursor + 1), b.cursor⟩, true)
  else
    (b, false)

/-- Modelled from the spec: `Backspace` removes the code point before the
cursor, moving the cursor back by 1; false (no-op) at cursor 0. -/
def backspace (b : RuneBuffer) : RuneBuffer × Bool :=
  if 0 < b.cursor then
    (⟨b.content.take (b.cursor - 1) ++ b.content.drop b.cursor, b.cursor - 1⟩, true)
  else
    (b, false)

/-- Modelled from the spec: `MoveBackward` shifts the cursor back by one,
clamped at 0. -/
def moveBackward (b : RuneBuffer) : RuneBuffer :=
  if 0 < b.cursor then { b with cursor := b.cursor - 1 } else b

/-- Modelled from the spec: `MoveForward` shifts the cursor forward by one,
clamped at the buffer length. -/
def moveForward (b : RuneBuffer) : RuneBuffer :=
  if b.cursor < b.content.length then { b with cursor := b.cursor + 1 } else b

/-- Modelled from the spec: `Kill` deletes from the cursor to the end of the
content. -/
def kill (b : RuneBuffer) : RuneBuffer :=
  { b with content := b.content.take b.cursor }

/-- Modelled from the spec: `KillFront` deletes from the start of the content
to the cursor. -/
def killFront (b : RuneBuffer) : RuneBuffer :=
  ⟨b.content.drop b.cursor, 0⟩

/-- Modelled from the spec: start index of the next word after `idx` — the
first position `i > idx` whose code point is not a space while its
predecessor is one; the buffer length when there is none (section 4.1). -/
def nextWordPos (cs : List Rune) (idx : Nat) : Nat :=
  (((List.range cs.length).filter
      (fun i => idx < i ∧ cs.getD i 0 ≠ 32 ∧ cs.getD (i - 1) 0 = 32)).head?).getD
    cs.length

/-- Modelled from the spec: start index of the previous word before `idx` —
the largest position `i` with `1 ≤ i < idx` whose code point is not a space
while its predecessor is one; 0 when there is none. -/
def prevWordPos (cs : List Rune) (idx : Nat) : Nat :=
  (((List.range idx).filter
      (fun i => 1 ≤ i ∧ cs.getD i 0 ≠ 32 ∧ cs.getD (i - 1) 0 = 32)).getLast?).getD 0

/-- Modelled from the spec: `MoveToNextWord`. -/
def moveToNextWord (b : RuneBuffer) : RuneBuffer :=
  { b with cursor := nextWordPos b.content b.cursor }

/-- Modelled from the spec: `MoveToPrevWord`. -/
def moveToPrevWord (b : RuneBuffer) : RuneBuffer :=
  { b with cursor := prevWordPos b.content b.cursor }

/-- Modelled from the spec: `DeleteWord` deletes from the cursor to the start
of the next word, without moving the cursor. -/
def deleteWord (b : RuneBuffer) : RuneBuffer :=
  { b with content :=
      b.content.take b.cursor ++ b.content.drop (nextWordPos b.content b.cursor) }

/-- Modelled from the spec: `BackEscapeWord` deletes from the start of the
previous word up to the cursor, moving the cursor back to that boundary. -/
def backEscapeWord (b : RuneBuffer) : RuneBuffer :=
  let p := prevWordPos b.content b.cursor
  ⟨b.content.take p ++ b.content.drop b.cursor, p⟩

/-- Modelled from the spec: `Transpose` swaps the code points at `cursor - 1`
and `cursor` when both exist, advancing the cursor by 1; no-op at the
extremes. -/
def transpose (b : RuneBuffer) : RuneBuffer :=
  if 0 < b.cursor ∧ b.cursor < b.content.length then
    ⟨(b.content.set (b.cursor - 1) (b.content.getD b.cursor 0)).set b.cursor
        (b.content.getD (b.cursor - 1) 0),
      b.cursor + 1⟩
  else b

/-- Modelled from the spec: `SetWithIdx` atomically replaces content and
cursor; an out-of-range cursor is clamped, never left inconsistent. -/
def setWithIdx (_b : RuneBuffer) (idx : Int) (line : List Rune) : RuneBuffer :=
  ⟨line, (max 0 (min idx (line.length : Int))).toNat⟩

end RuneBuffer

/-- A listener hook: given the line content, cursor position and last key, it
returns a replacement line, replacement cursor and an acceptance flag
(`Listener.OnChange` in `operation.go`). -/
abbrev ListenerF := List Rune → Nat → Rune → List Rune × Int × Bool

/-- The configuration record of `readline.go`.  I/O streams and the raw-mode
and width callbacks are external collaborators; the embedding only tracks
whether each of them has been assigned (nil-ness), which is all
`Config.Init` inspects. -/
structure Config where
  prompt : String := ""
  listener : Option ListenerF := none
  interruptPrompt : String := ""
  eofPrompt : String := ""
  funcGetWidthSet : Bool := false
  stdinSet : Bool := false
  stdoutSet : Bool := false
  stderrSet : Bool := false
  enableMask : Bool := false
  maskRune : Rune := 0
  uniqueEditLine : Bool := false
  funcFilterInputRune : Option (Rune → Rune × Bool) := none
  funcIsTerminalSet : Bool := false
  funcMakeRawSet : Bool := false
  funcExitRawSet : Bool := false
  funcOnWidthChangedSet : Bool := false
  forceUseInteractive : Bool := false
  inited : Bool := false

/-- `Config.Init` of `readline.go`: a no-op when already initialized,
otherwise it fills stream fallbacks, rewrites the two banner prompts
(empty selects the default, a sole newline is rewritten to empty) and fills
the function defaults.  It always returns a nil error. -/
def Config.doInit (c : Config) : Config × Option String :=
  if c.inited then (c, none)
  else
    ({ prompt := c.prompt
       listener := c.listener
       interruptPrompt :=
         if c.interruptPrompt = "" then "^C"
         else if c.interruptPrompt = "\n" then "" else c.interruptPrompt
       eofPrompt :=
         if c.eofPrompt = "" then "^D"
         else if c.eofPrompt = "\n" then "" else c.eofPrompt
       funcGetWidthSet := if ¬c.funcGetWidthSet then true else c.funcGetWidthSet
       stdinSet := if ¬c.stdinSet then true else c.stdinSet
       stdoutSet := if ¬c.stdoutSet then true else c.stdoutSet
       stderrSet := if ¬c.stderrSet then true else c.stderrSet
       enableMask := c.enableMask
       maskRune := c.maskRune
       uniqueEditLine := c.uniqueEditLine
       funcFilterInputRune := c.funcFilterInputRune
       funcIsTerminalSet := if ¬c.funcIsTerminalSet then true else c.funcIsTerminalSet
       funcMakeRawSet := if ¬c.funcMakeRawSet then true else c.funcMakeRawSet
       funcExitRawSet := if ¬c.funcExitRawSet then true else c.funcExitRawSet
       funcOnWidthChangedSet :=
         if ¬c.funcOnWidthChangedSet then true else c.funcOnWidthChangedSet
       forceUseInteractive := c.forceUseInteractive
       inited := true }, none)

/-- The `hint` string built in the `CharInterrupt` case of the dispatch loop:
`o.cfg.InterruptPrompt + "\n"`. -/
def interruptHint (cfg : Config) : String := cfg.interruptPrompt ++ "\n"

/-- The string written in the empty-buffer `CharDelete` case of the dispatch
loop: `o.cfg.EOFPrompt + "\n"`. -/
def eofHint (cfg : Config) : String := cfg.eofPrompt ++ "\n"

/-- The errors sent on the dispatch loop's error channel: `io.EOF` or an
`InterruptError` carrying the remaining line. -/
inductive LoopErr where
  | eofErr : LoopErr
  | interruptErr : List Rune → LoopErr
deriving Repr, DecidableEq

/-- One value published by the dispatch loop: a completed line on `outchan`
or an error on `errchan`. -/
inductive Emit where
  | line : List Rune → Emit
  | err : LoopErr → Emit
deriving Repr, DecidableEq

/-- Terminal-side actions the dispatch loop performs besides mutating the
buffer: re-render, bell, screen clear, erase of the current rendering,
suspend, and the read kick of the `CharDelete` case. -/
inductive Act where
  | refresh : Act
  | bell : Act
  | clearScreen : Act
  | cleanScreen : Act
  | sleepResume : Act
  | kickRead : Act
deriving Repr, DecidableEq

/-- The key-dispatch switch of `Operation.ioloop` (`operation.go`), one case
per key, in source order: it maps the configuration, the current buffer and
the (already filtered, non-zero) rune to the new buffer, an optional
published value and the terminal actions performed. -/
def dispatch (cfg : Config) (buf : RuneBuffer) (r : Rune) :
    RuneBuffer × Option Emit × List Act :=
  if r = CharTab then (buf, none, [.bell])
  else if r = CharBckSearch then (buf, none, [.bell])
  else if r = CharCtrlU then (buf.killFront, none, [])
  else if r = CharFwdSearch then (buf, none, [.bell])
  else if r = CharKill then (buf.kill, none, [])
  else if r = MetaForward then (buf.moveToNextWord, none, [])
  else if r = CharTranspose then (buf.transpose, none, [])
  else if r = MetaBackward then (buf.moveToPrevWord, none, [])
  else if r = MetaDelete then (buf.deleteWord, none, [])
  else if r = CharLineStart then (buf.moveToLineStart, none, [])
  else if r = CharLineEnd then (buf.moveToLineEnd, none, [])
  else if r = CharBackspace ∨ r = CharCtrlH then
    if buf.len = 0 then (buf, none, [.bell])
    else ((buf.backspace).1, none, [])
  else if r = CharCtrlZ then (buf.clean, none, [.cleanScreen, .sleepResume, .refresh])
  else if r = CharCtrlL then (buf, none, [.clearScreen, .refresh])
  else if r = MetaBackspace ∨ r = CharCtrlW then (buf.backEscapeWord, none, [])
  else if r = CharEnter ∨ r = CharCtrlJ then
    let b1 := buf.moveToLineEnd
    if ¬cfg.uniqueEditLine then
      let b2 := b1.writeRune 10
      let (data, b3) := b2.reset
      (b3, some (.line data.dropLast), [])
    else
      let b2 := b1.clean
      let (data, b3) := b2.reset
      (b3, some (.line data), [.cleanScreen])
  else if r = CharBackward then (buf.moveBackward, none, [])
  else if r = CharForward then (buf.moveForward, none, [])
  else if r = CharDelete then
    if 0 < buf.len then
      let (b1, ok) := buf.delete
      (b1, none, [.kickRead] ++ if ok then [] else [.bell])
    else
      let b1 := if ¬cfg.uniqueEditLine then buf.writeString (strRunes (eofHint cfg)) else buf
      let (_, b2) := b1.reset
      (b2, some (.err .eofErr), if cfg.uniqueEditLine then [.cleanScreen] else [])
  else if r = CharInterrupt then
    let b1 := buf.moveToLineEnd
    let hint := strRunes (interruptHint cfg)
    let b2 := if ¬cfg.uniqueEditLine then b1.writeString hint else b1
    let (remain0, b3) := b2.reset
    let remain :=
      if ¬cfg.uniqueEditLine then remain0.take (remain0.length - hint.length)
      else remain0
    (b3, some (.err (.interruptErr remain)), [.refresh])
  else (buf.writeRune r, none, [])

/-- Result of one iteration of `Operation.ioloop`: the buffer afterwards, the
optional value published on a channel, the terminal actions, and whether the
loop breaks out. -/
structure IterOut where
  buf : RuneBuffer
  emit : Option Emit
  acts : List Act
  brk : Bool
deriving Repr, DecidableEq

/-- One iteration of `Operation.ioloop` (`operation.go`): apply the input
filter (a veto re-renders and skips the rest), treat the zero rune as
end-of-stream — finalizing with `io.EOF` when the buffer is empty, otherwise
re-reading it as `CharEnter` — then dispatch on the key and finally invoke
the listener, applying its returned state only when it accepts. -/
def ioloopIter (cfg : Config) (buf : RuneBuffer) (r0 : Rune) : IterOut :=
  let fr : Option Rune :=
    match cfg.funcFilterInputRune with
    | some f =>
        let (r1, process) := f r0
        if process then some r1 else none
    | none => some r0
  match fr with
  | none => { buf := buf, emit := none, acts := [.refresh], brk := false }
  | some r1 =>
    if r1 = 0 ∧ buf.len = 0 then
      { buf := buf.clean, emit := some (.err .eofErr), acts := [.cleanScreen], brk := true }
    else
      let r := if r1 = 0 then CharEnter else r1
      let (b1, em, as) := dispatch cfg buf r
      let b2 :=
        match cfg.listener with
        | some L =>
            match L b1.content b1.cursor r with
            | (nl, np, true) => b1.setWithIdx np nl
            | (_, _, false) => b1
        | none => b1
      { buf := b2, emit := em, acts := as, brk := false }

/-- The dispatch loop run over a list of input runes: collects everything
published, the final buffer, and whether the loop broke out. -/
def ioloopRun (cfg : Config) (buf : RuneBuffer) : List Rune → List Emit × RuneBuffer × Bool
  | [] => ([], buf, false)
  | r :: rs =>
    let o := ioloopIter cfg buf r
    if o.brk then (o.emit.toList, o.buf, true)
    else
      let (es, b, k) := ioloopRun cfg o.buf rs
      (o.emit.toList ++ es, b, k)

/-- The public signal paired with the text returned by the synchronous read:
`io.EOF` or `ErrInterrupt` (`nil` is `none`). -/
inductive Sig where
  | eofSig : Sig
  | interruptSig : Sig
deriving Repr, DecidableEq

/-- The `select` arm of `Operation.Runes` (`operation.go`): a completed line
is returned with a nil error; an `InterruptError` is unwrapped into its
carried line paired with `ErrInterrupt`; any other channel error is returned
with a nil line. -/
def runesResult : Emit → List Rune × Option Sig
  | .line s => (s, none)
  | .err .eofErr => ([], some .eofSig)
  | .err (.interruptErr l) => (l, some .interruptSig)

/-- The initial listener notification of `Operation.Runes`
(`operation.go`): when a listener is configured it is called with
`(nil, 0, 0)` and its result is discarded, so the buffer is returned
unchanged. -/
def runesListenerInit (cfg : Config) (buf : RuneBuffer) : RuneBuffer :=
  match cfg.listener with
  | some L =>
      let _ := L [] 0 0
      buf
  | none => buf

/-- The actions `Operation.Runes` performs, in order: enter raw mode, the
optional initial listener notification, the prompt render, the read kick,
the blocking channel receive, and — via the deferred call — the raw-mode
exit. -/
inductive RAction where
  | enterRaw : RAction
  | exitRaw : RAction
  | listenerInit : RAction
  | refresh : RAction
  | kickRead : RAction
  | recv : RAction
deriving Repr, DecidableEq

/-- The action trace of one `Operation.Runes` call (`operation.go`): the
deferred `ExitRawMode` runs last on every return path. -/
def opRunesTrace (cfg : Config) : List RAction :=
  [.enterRaw] ++
    (match cfg.listener with
     | some _ => [.listenerInit]
     | none => []) ++
    [.refresh, .kickRead, .recv, .exitRaw]

/-- Raw-mode state after executing a trace of actions, starting from `b`. -/
def rawAfter : List RAction → Bool → Bool
  | [], b => b
  | .enterRaw :: t, _ => rawAfter t true
  | .exitRaw :: t, _ => rawAfter t false
  | _ :: t, b => rawAfter t b

/-- `Operation.Runes` (`operation.go`): its action trace, the text/signal
pair it returns for a given published value, and the buffer after the
initial listener notification. -/
def opRunes (cfg : Config) (buf : RuneBuffer) (outcome : Emit) :
    List RAction × (List Rune × Option Sig) × RuneBuffer :=
  (opRunesTrace cfg, runesResult outcome, runesListenerInit cfg buf)

/-- Events observable on the terminal output during a wrapped write: the
erase of the current rendering, the write to the underlying target, and the
redraw of the line. -/
inductive WEvent where
  | erase : WEvent
  | targetWrite : List Nat → WEvent
  | redraw : WEvent
deriving Repr, DecidableEq

/-- `wrapWriter.Write` (`operation.go`): when the terminal is not reading the
bytes go straight to the target; otherwise the target write runs as the side
effect of a `Refresh` cycle.  `Refresh` with a side effect is modelled from
the spec (section 5): erase the current render, run the side effect, redraw
the line.  The returned count and error are the target's, unchanged. -/
def wrapWrite (isReading : Bool) (target : List Nat → Nat × Option String)
    (b : List Nat) : (Nat × Option String) × List WEvent :=
  if !isReading then (target b, [.targetWrite b])
  else (target b, [.erase, .targetWrite b, .redraw])

/-- `Instance.Write` (`readline.go`): delegates to the wrapped stdout
writer. -/
def instanceWrite (isReading : Bool) (stdoutTarget : List Nat → Nat × Option String)
    (b : List Nat) : (Nat × Option String) × List WEvent :=
  wrapWrite isReading stdoutTarget b

/-- The `Result` wrapper of `readline.go`. -/
structure GoResult where
  line : String
  err : Option Sig
deriving Repr, DecidableEq

/-- `Result.CanContinue` (`readline.go`): the line is non-empty and the error
is `ErrInterrupt`. -/
def GoResult.canContinue (l : GoResult) : Bool :=
  l.line.length != 0 && l.err == some Sig.interruptSig

/-- `Result.CanBreak` (`readline.go`): not `CanContinue` and the error is
non-nil. -/
def GoResult.canBreak (l : GoResult) : Bool :=
  !l.canContinue && l.err != none

/-- A store of configurations addressed by reference, modelling Go pointer
identity for the `SetConfig` operations. -/
def updateStore (store : Nat → Config) (i : Nat) (c : Config) : Nat → Config :=
  fun j => if j = i then c else store j

/-- The parts of an `Operation` that `Operation.SetConfig` may touch: the
held configuration reference and the buffer's prompt, mask and configuration
reference. -/
structure OpState where
  cfgRef : Nat
  bufPrompt : String
  bufMask : Rune
  bufCfgRef : Nat
deriving Repr, DecidableEq

/-- `Operation.SetConfig` (`operation.go`): a pointer-identical configuration
returns immediately with the held configuration and a nil error; otherwise
the new configuration is initialized, installed, and the previous one
returned. -/
def opSetConfig (store : Nat → Config) (st : OpState) (ref : Nat) :
    (Nat → Config) × OpState × Nat × Option String :=
  if st.cfgRef = ref then (store, st, st.cfgRef, none)
  else
    let (c, e) := (store ref).doInit
    match e with
    | some msg => (store, st, st.cfgRef, some msg)
    | none =>
        let store1 := updateStore store ref c
        let old := st.cfgRef
        (store1,
          { cfgRef := ref, bufPrompt := c.prompt, bufMask := c.maskRune, bufCfgRef := ref },
          old, none)

/-- The parts of an `Instance` that `Instance.SetConfig` may touch. -/
structure InstState where
  cfgRef : Nat
  op : OpState
  termCfgRef : Nat
deriving Repr, DecidableEq

/-- `Instance.SetConfig` (`readline.go`): a pointer-identical configuration
is returned unchanged with no further effect; otherwise the instance,
operation and terminal all switch to the new configuration and the previous
one is returned. -/
def instSetConfig (store : Nat → Config) (ist : InstState) (ref : Nat) :
    (Nat → Config) × InstState × Nat :=
  if ist.cfgRef = ref then (store, ist, ref)
  else
    let old := ist.cfgRef
    let (store1, op1, _, _) := opSetConfig store ist.op ref
    (store1, { cfgRef := ref, op := op1, termCfgRef := ref }, old)

/-! Theorems about the claims. -/

/-- Claim C1: on the interrupt key (Ctrl+C) the dispatch loop moves the
cursor to the end, re-renders, appends the interrupt banner in non-erase
mode, resets the buffer, and emits an interrupt outcome carrying exactly the
buffer content (the appended banner is stripped again); the synchronous read
returns that text paired with `ErrInterrupt`.  Typing "hello" then Ctrl+C
emits exactly "hello". -/
theorem interrupt_key_carries_content (cfg : Config) (buf : RuneBuffer)
    (hL : cfg.listener = none) (hF : cfg.funcFilterInputRune = none) :
    ioloopIter cfg buf CharInterrupt =
      ⟨⟨[], 0⟩, some (.err (.interruptErr buf.content)), [Act.refresh], false⟩ ∧
    runesResult (.err (.interruptErr buf.content)) =
      (buf.content, some .interruptSig) ∧
    (ioloopRun { interruptPrompt := "^C" } ⟨[], 0⟩
        (strRunes "hello" ++ [CharInterrupt])).1 =
      [.err (.interruptErr (strRunes "hello"))] := by
  refine ⟨?_, rfl, by decide⟩
  by_cases hU : cfg.uniqueEditLine <;>
    simp [ioloopIter, hF, hL, dispatch, hU, CharInterrupt, CharTab, CharBckSearch,
      CharCtrlU, CharFwdSearch, CharKill, MetaForward, CharTranspose, MetaBackward,
      MetaDelete, CharLineStart, CharLineEnd, CharBackspace, CharCtrlH, CharCtrlZ,
      CharCtrlL, MetaBackspace, CharCtrlW, CharEnter, CharCtrlJ, CharBackward,
      CharForward, CharDelete, RuneBuffer.moveToLineEnd, RuneBuffer.writeString,
      RuneBuffer.reset, RuneBuffer.len, List.take_left]

/-- Witness for C1: the interrupt theorem applied to a concrete
configuration and the buffer holding "ab". -/
theorem interrupt_key_carries_content_witness :
    ioloopIter { interruptPrompt := "^C" } ⟨strRunes "ab", 2⟩ CharInterrupt =
      ⟨⟨[], 0⟩, some (.err (.interruptErr (strRunes "ab"))), [Act.refresh], false⟩ :=
  (interrupt_key_carries_content { interruptPrompt := "^C" }
    ⟨strRunes "ab", 2⟩ rfl rfl).1

/-- Counterexample to claim C2 as stated: with the non-empty buffer "a" and
the cursor at the end of the line, Ctrl+D deletes no code point — the
content is unchanged and the bell sounds (it still emits no end-of-input). -/
theorem ctrlD_at_line_end_deletes_nothing :
    (ioloopIter ({} : Config) ⟨[97], 1⟩ CharDelete).buf.content = [97] ∧
    (ioloopIter ({} : Config) ⟨[97], 1⟩ CharDelete).acts =
      [Act.kickRead, Act.bell] ∧
    (ioloopIter ({} : Config) ⟨[97], 1⟩ CharDelete).emit = none := by decide

/-- Claim C2 (amended): with an empty buffer Ctrl+D writes the end-of-input
banner unless in erase-on-submit mode, resets the buffer and emits `io.EOF`,
so the read returns empty text with the end-of-input signal; with a
non-empty buffer it instead attempts a forward delete — removing the code
point at the cursor when one exists and ringing the bell when the cursor is
at the end — and never emits end-of-input. -/
theorem ctrlD_eof_or_forward_delete (cfg : Config) (buf : RuneBuffer)
    (hL : cfg.listener = none) (hF : cfg.funcFilterInputRune = none) :
    (buf.len = 0 →
      ioloopIter cfg buf CharDelete =
        ⟨⟨[], 0⟩, some (.err .eofErr),
          if cfg.uniqueEditLine then [Act.cleanScreen] else [], false⟩ ∧
      runesResult (.err .eofErr) = ([], some .eofSig)) ∧
    (0 < buf.len →
      (ioloopIter cfg buf CharDelete).emit = none ∧
      (ioloopIter cfg buf CharDelete).buf = (buf.delete).1 ∧
      (buf.cursor < buf.len →
        (ioloopIter cfg buf CharDelete).buf.content =
          buf.content.take buf.cursor ++ buf.content.drop (buf.cursor + 1)) ∧
      (¬buf.cursor < buf.len →
        (ioloopIter cfg buf CharDelete).buf = buf ∧
        (ioloopIter cfg buf CharDelete).acts = [Act.kickRead, Act.bell])) := by
  constructor
  · intro h0
    have h0c : buf.content.length = 0 := by simpa [RuneBuffer.len] using h0
    refine ⟨?_, rfl⟩
    by_cases hU : cfg.uniqueEditLine <;>
      simp [ioloopIter, hF, hL, dispatch, hU, h0c, CharDelete, CharTab, CharBckSearch,
        CharCtrlU, CharFwdSearch, CharKill, MetaForward, CharTranspose, MetaBackward,
        MetaDelete, CharLineStart, CharLineEnd, CharBackspace, CharCtrlH, CharCtrlZ,
        CharCtrlL, MetaBackspace, CharCtrlW, CharEnter, CharCtrlJ, CharBackward,
        CharForward, RuneBuffer.writeString, RuneBuffer.reset, RuneBuffer.len]
  · intro hpos
    have hposc : 0 < buf.content.length := by simpa [RuneBuffer.len] using hpos
    have hit : ioloopIter cfg buf CharDelete =
        { buf := (buf.delete).1, emit := none,
          acts := [Act.kickRead] ++ if (buf.delete).2 then [] else [Act.bell],
          brk := false } := by
      simp [ioloopIter, hF, hL, dispatch, hposc, CharDelete, CharTab, CharBckSearch,
        CharCtrlU, CharFwdSearch, CharKill, MetaForward, CharTranspose, MetaBackward,
        MetaDelete, CharLineStart, CharLineEnd, CharBackspace, CharCtrlH, CharCtrlZ,
        CharCtrlL, MetaBackspace, CharCtrlW, CharEnter, CharCtrlJ, CharBackward,
        CharForward, RuneBuffer.len]
    refine ⟨by simp [hit], by simp [hit], ?_, ?_⟩
    · intro hc
      simp [hit, RuneBuffer.delete, RuneBuffer.len] at hc ⊢
      simp [hc]
    · intro hc
      have hc2 : ¬buf.cursor < buf.content.length := by
        simpa [RuneBuffer.len] using hc
      simp [hit, RuneBuffer.delete, hc2]

/-- Witness for C2: the amended Ctrl+D theorem applied to the empty buffer
and to the buffer "ab" with the cursor at 0. -/
theorem ctrlD_eof_or_forward_delete_witness :
    ioloopIter ({} : Config) ⟨[], 0⟩ CharDelete =
      ⟨⟨[], 0⟩, some (.err .eofErr), [], false⟩ ∧
    (ioloopIter ({} : Config) ⟨strRunes "ab", 0⟩ CharDelete).buf.content =
      [98] := by
  constructor
  · have h := (ctrlD_eof_or_forward_delete ({} : Config) ⟨[], 0⟩ rfl rfl).1 rfl
    simpa using h.1
  · have h := (ctrlD_eof_or_forward_delete ({} : Config) ⟨strRunes "ab", 0⟩ rfl rfl).2
      (by decide)
    have h2 := (h.2.2.1 (by decide))
    simpa using h2

/-- Claim C3: Enter (or Ctrl+J) moves the cursor to the end; in non-erase
mode a line terminator is appended and stripped again, in erase-on-submit
mode the rendered line is cleared first — either way the emitted completed
line is exactly the buffer content and the buffer is reset to empty content
and cursor 0.  Typing "x" then Enter emits exactly "x". -/
theorem enter_emits_exact_line (cfg : Config) (buf : RuneBuffer)
    (hL : cfg.listener = none) (hF : cfg.funcFilterInputRune = none) :
    ioloopIter cfg buf CharEnter =
      ⟨⟨[], 0⟩, some (.line buf.content),
        if cfg.uniqueEditLine then [Act.cleanScreen] else [], false⟩ ∧
    ioloopIter cfg buf CharCtrlJ = ioloopIter cfg buf CharEnter ∧
    runesResult (.line buf.content) = (buf.content, none) ∧
    (ioloopRun ({} : Config) ⟨[], 0⟩ [120, CharEnter]).1 = [.line [120]] ∧
    (ioloopRun ({} : Config) ⟨[], 0⟩ [120, CharEnter]).2.1 = ⟨[], 0⟩ := by
  refine ⟨?_, ?_, rfl, by decide, by decide⟩
  · by_cases hU : cfg.uniqueEditLine <;>
      simp [ioloopIter, hF, hL, dispatch, hU, CharEnter, CharTab, CharBckSearch,
        CharCtrlU, CharFwdSearch, CharKill, MetaForward, CharTranspose, MetaBackward,
        MetaDelete, CharLineStart, CharLineEnd, CharBackspace, CharCtrlH, CharCtrlZ,
        CharCtrlL, MetaBackspace, CharCtrlW, CharCtrlJ, RuneBuffer.moveToLineEnd,
        RuneBuffer.writeRune, RuneBuffer.reset, RuneBuffer.clean]
  · simp [ioloopIter, hF, hL, dispatch, CharEnter, CharCtrlJ, CharTab, CharBckSearch,
      CharCtrlU, CharFwdSearch, CharKill, MetaForward, CharTranspose, MetaBackward,
      MetaDelete, CharLineStart, CharLineEnd, CharBackspace, CharCtrlH, CharCtrlZ,
      CharCtrlL, MetaBackspace, CharCtrlW]

/-- Witness for C3: the Enter theorem applied to a concrete configuration
and the buffer holding "x". -/
theorem enter_emits_exact_line_witness :
    ioloopIter ({} : Config) ⟨[120], 1⟩ CharEnter =
      ⟨⟨[], 0⟩, some (.line [120]), [], false⟩ :=
  (enter_emits_exact_line ({} : Config) ⟨[120], 1⟩ rfl rfl).1

/-- Claim C4: the zero rune (raw end-of-stream) is handled before dispatch —
with an empty buffer the loop cleans the rendering, emits `io.EOF` and
breaks out; with a non-empty buffer the iteration is exactly the Enter
iteration, so the buffered text is flushed as a completed line and the next
zero rune delivers the genuine end-of-input. -/
theorem zero_rune_end_of_stream (cfg : Config) (buf : RuneBuffer)
    (hF : cfg.funcFilterInputRune = none) :
    (buf.len = 0 →
      ioloopIter cfg buf 0 =
        ⟨⟨buf.content, buf.cursor⟩, some (.err .eofErr), [Act.cleanScreen], true⟩) ∧
    (buf.len ≠ 0 → ioloopIter cfg buf 0 = ioloopIter cfg buf CharEnter) ∧
    (buf.len ≠ 0 → cfg.listener = none →
      (ioloopIter cfg buf 0).emit = some (.line buf.content) ∧
      (ioloopIter cfg buf 0).brk = false ∧
      ioloopIter cfg (ioloopIter cfg buf 0).buf 0 =
        ⟨⟨[], 0⟩, some (.err .eofErr), [Act.cleanScreen], true⟩) := by
  refine ⟨?_, ?_, ?_⟩
  · intro h0
    simp [ioloopIter, hF, h0, RuneBuffer.clean]
  · intro hn
    simp [ioloopIter, hF, hn, CharEnter]
  · intro hn hL
    have he := (enter_emits_exact_line cfg buf hL hF).1
    have h0 : ioloopIter cfg buf 0 = ioloopIter cfg buf CharEnter := by
      simp [ioloopIter, hF, hn, CharEnter]
    rw [h0, he]
    refine ⟨rfl, rfl, ?_⟩
    simp [ioloopIter, hF, RuneBuffer.len, RuneBuffer.clean]

/-- Witness for C4: the end-of-stream theorem applied to the empty buffer
and to the buffer "hi". -/
theorem zero_rune_end_of_stream_witness :
    ioloopIter ({} : Config) ⟨[], 0⟩ 0 =
      ⟨⟨[], 0⟩, some (.err .eofErr), [Act.cleanScreen], true⟩ ∧
    (ioloopIter ({} : Config) ⟨strRunes "hi", 2⟩ 0).emit =
      some (.line (strRunes "hi")) := by
  constructor
  · exact (zero_rune_end_of_stream ({} : Config) ⟨[], 0⟩ rfl).1 rfl
  · exact ((zero_rune_end_of_stream ({} : Config) ⟨strRunes "hi", 2⟩ rfl).2.2
      (by decide) rfl).1

/-- Claim C5: `CanContinue` holds exactly when the line is non-empty and the
error is `ErrInterrupt`; `CanBreak` holds exactly when `CanContinue` fails
and an error is present; the two are never both true. -/
theorem canContinue_canBreak_exclusive (res : GoResult) :
    (res.canContinue = true ↔
      res.line.length ≠ 0 ∧ res.err = some Sig.interruptSig) ∧
    (res.canBreak = true ↔ res.canContinue = false ∧ res.err ≠ none) ∧
    ¬(res.canContinue = true ∧ res.canBreak = true) := by
  obtain ⟨l, e⟩ := res
  rcases e with _ | s
  · simp [GoResult.canContinue, GoResult.canBreak]
  · cases s
    · simp [GoResult.canContinue, GoResult.canBreak]
    · by_cases hl : l.length = 0 <;>
        simp [GoResult.canContinue, GoResult.canBreak, hl]

/-- Counterexample to claim C6: initializing a configuration whose banner
options are the empty string installs the default banners "^C"/"^D", so the
hint written on interrupt is "^C\n" rather than the bare newline — the empty
string does not suppress the banner. -/
theorem empty_banner_not_suppressed :
    (Config.doInit { interruptPrompt := "", eofPrompt := "" }).1.interruptPrompt
      = "^C" ∧
    (Config.doInit { interruptPrompt := "", eofPrompt := "" }).1.eofPrompt
      = "^D" ∧
    interruptHint (Config.doInit { interruptPrompt := "", eofPrompt := "" }).1
      = "^C\n" ∧
    eofHint (Config.doInit { interruptPrompt := "", eofPrompt := "" }).1
      = "^D\n" := ⟨rfl, rfl, rfl, rfl⟩

/-- Claim C6 (amended): a banner option equal to a sole newline suppresses
the banner — initialization rewrites it to the empty string, so only the
newline itself is written on interrupt or end-of-input — while an empty
option instead selects the default banner ("^C" or "^D"). -/
theorem newline_banner_suppressed (c : Config) (h : c.inited = false) :
    (c.interruptPrompt = "\n" →
      (Config.doInit c).1.interruptPrompt = "" ∧
      interruptHint (Config.doInit c).1 = "\n") ∧
    (c.eofPrompt = "\n" →
      (Config.doInit c).1.eofPrompt = "" ∧
      eofHint (Config.doInit c).1 = "\n") ∧
    (c.interruptPrompt = "" → (Config.doInit c).1.interruptPrompt = "^C") ∧
    (c.eofPrompt = "" → (Config.doInit c).1.eofPrompt = "^D") := by
  refine ⟨?_, ?_, ?_, ?_⟩
  · intro hi
    simp [Config.doInit, h, interruptHint, hi]
  · intro he
    simp [Config.doInit, h, eofHint, he]
  · intro hi
    simp [Config.doInit, h, hi]
  · intro he
    simp [Config.doInit, h, he]

/-- Witness for C6: the amended banner theorem applied to a configuration
whose two banner options are both the newline string. -/
theorem newline_banner_suppressed_witness :
    interruptHint
        (Config.doInit { interruptPrompt := "\n", eofPrompt := "\n" }).1 = "\n" ∧
    eofHint (Config.doInit { interruptPrompt := "\n", eofPrompt := "\n" }).1
      = "\n" := by
  have h := newline_banner_suppressed { interruptPrompt := "\n", eofPrompt := "\n" } rfl
  exact ⟨(h.1 rfl).2, (h.2.1 rfl).2⟩

/-- Counterexample to claim C7: a listener invoked at the start of the
synchronous read with the zero key that accepts — returning line [97] and
cursor 1 — does not get its returned state applied: the buffer stays empty,
unlike the `SetWithIdx` application the claim asserts. -/
theorem initial_listener_result_discarded :
    runesListenerInit { listener := some (fun _ _ _ => ([97], 1, true)) } ⟨[], 0⟩
      = ⟨[], 0⟩ ∧
    RuneBuffer.setWithIdx ⟨[], 0⟩ 1 [97] = ⟨[97], 1⟩ ∧
    (⟨[], 0⟩ : RuneBuffer) ≠ ⟨[97], 1⟩ := ⟨rfl, by decide, by decide⟩

/-- Claim C7 (amended): after every processed key the listener is invoked
with the buffer's content, cursor and that key, and the buffer is replaced
through `SetWithIdx` exactly when the listener accepts; the additional
invocation at the start of each synchronous read passes nil content, cursor
0 and the zero key, but its return value is discarded, so it never modifies
the buffer. -/
theorem listener_applied_exactly_when_accepted (cfg : Config) (L : ListenerF)
    (buf : RuneBuffer) (r : Rune) (hL : cfg.listener = some L)
    (hF : cfg.funcFilterInputRune = none) (hr : r ≠ 0) :
    (ioloopIter cfg buf r).buf =
      (match L (dispatch cfg buf r).1.content (dispatch cfg buf r).1.cursor r with
       | (nl, np, true) => (dispatch cfg buf r).1.setWithIdx np nl
       | (_, _, false) => (dispatch cfg buf r).1) ∧
    (ioloopIter cfg buf r).emit = (dispatch cfg buf r).2.1 ∧
    runesListenerInit cfg buf = buf := by
  rcases hd : dispatch cfg buf r with ⟨b1, em, as⟩
  refine ⟨?_, ?_, ?_⟩
  · rcases hres : L b1.content b1.cursor r with ⟨nl, np, ok⟩
    cases ok <;> simp [ioloopIter, hF, hL, hr, hd, hres]
  · simp [ioloopIter, hF, hL, hr, hd]
  · simp [runesListenerInit, hL]

/-- Witness for C7: the amended listener theorem applied to a concrete
accepting listener and the printable key 97. -/
theorem listener_applied_exactly_when_accepted_witness :
    (ioloopIter { listener := some (fun _ _ _ => ([98], (0 : Int), true)) }
        ⟨[], 0⟩ 97).buf = ⟨[98], 0⟩ ∧
    runesListenerInit { listener := some (fun _ _ _ => ([98], (0 : Int), true)) }
        ⟨[], 0⟩ = ⟨[], 0⟩ := by
  have h := listener_applied_exactly_when_accepted
    { listener := some (fun _ _ _ => ([98], (0 : Int), true)) }
    (fun _ _ _ => ([98], (0 : Int), true)) ⟨[], 0⟩ 97 rfl rfl (by decide)
  exact ⟨h.1.trans (by rfl), h.2.2⟩

/-- Claim C8: a write through the wrapped output streams returns the
underlying writer's count and error unchanged; while the loop is reading it
runs inside a Refresh cycle (erase, underlying write, redraw), otherwise it
passes straight to the target; `Instance.Write` delegates to the wrapped
stdout stream. -/
theorem wrapped_write_refresh_cycle (isReading : Bool)
    (target : List Nat → Nat × Option String) (b : List Nat) :
    wrapWrite isReading target b =
      (target b,
        if isReading then [WEvent.erase, .targetWrite b, .redraw]
        else [.targetWrite b]) ∧
    instanceWrite isReading target b = wrapWrite isReading target b := by
  cases isReading <;> simp [wrapWrite, instanceWrite]

/-- Claim C9: every `Operation.Runes` call enters raw mode first and exits
raw mode last on every return path — completed line, end-of-input and
interrupt alike — so the terminal is never left in raw mode on return. -/
theorem runes_always_exits_raw_mode (cfg : Config) (buf : RuneBuffer)
    (outcome : Emit) :
    (opRunes cfg buf outcome).1.head? = some RAction.enterRaw ∧
    (opRunes cfg buf outcome).1.getLast? = some RAction.exitRaw ∧
    rawAfter (opRunes cfg buf outcome).1 false = false ∧
    rawAfter (opRunes cfg buf outcome).1 true = false ∧
    (opRunes cfg buf outcome).2.1 = runesResult outcome := by
  cases h : cfg.listener <;> simp [opRunes, opRunesTrace, h, rawAfter]

/-- Claim C10: configuration application is idempotent — a second `Init` on
an already-initialized configuration returns a nil error and changes
nothing, and both `SetConfig` operations applied to the pointer-identical
active configuration are complete no-ops returning that configuration. -/
theorem config_application_idempotent (c : Config) (store : Nat → Config)
    (st : OpState) (ist : InstState) :
    Config.doInit (Config.doInit c).1 = ((Config.doInit c).1, none) ∧
    opSetConfig store st st.cfgRef = (store, st, st.cfgRef, none) ∧
    instSetConfig store ist ist.cfgRef = (store, ist, ist.cfgRef) := by
  refine ⟨?_, by simp [opSetConfig], by simp [instSetConfig]⟩
  by_cases h : c.inited <;> simp [Config.doInit, h]

end Rawterm
